import Mathlib

/-!
# Verification of the adaptive traffic-signal controller

Shallow embedding of the adaptive traffic controller repository.

* Namespace `Proportional` embeds `ProportionalController` from
  `src/edge_controller.py`: the message-ingest handler `on_message`, the
  allocation algorithm `compute_green_times`, the schedule publisher and the
  control-loop tick.  Python floats are modelled as rationals, Python ints as
  `ℤ`; dictionaries keyed by lane become functions `L → _` for an arbitrary
  lane-identifier type `L` with decidable equality (the source uses strings;
  nothing depends on the labels themselves); a raised exception caught by the
  handler's outer `try` is modelled by returning the state as mutated so far.
* Namespace `Adaptive` embeds `AdaptiveController` from
  `src/traffic-api/app.py` (hard-coded configuration, module-level
  `sensor_data` passed as a parameter), with its four fixed lanes as the
  inductive type `Lane4`.
* `valid_config` is the configuration-validity predicate written from the
  spec's words (§4.3, §7); the source performs no such validation, and the
  predicate exists only to compare the spec's claim against the embedded code.
-/

/-- Python `int()` applied to a float: truncation toward zero, on `ℚ`. -/
def pyInt (q : ℚ) : ℤ := q.num.tdiv q.den

/-- The four lanes `north, south, east, west` hard-coded in
`src/traffic-api/app.py` and used by the example configuration. -/
inductive Lane4 where
  | north
  | south
  | east
  | west
  deriving DecidableEq

namespace Proportional

variable {L : Type*} [DecidableEq L]

/-- One element of `self.sensor_data[lane]`: the dict built at
`edge_controller.py:101-105` with keys `density`, `queue`, `timestamp`
(the stored timestamp is the message's publish timestamp `t_publish`). -/
structure Entry where
  density : ℚ
  queue : ℤ
  timestamp : ℚ
  deriving DecidableEq

/-- An inbound MQTT payload as `on_message` reads it.  A field is `none`
when the key is missing from the JSON object (Python raises `KeyError` at
the point of access; `queue_len` is read with `.get` and never raises). -/
structure Message (L : Type*) where
  lane : Option L
  density_pct : Option ℚ
  queue_len : Option ℤ
  seq : Option ℤ
  ts : Option ℚ

/-- The `timing_parameters` section of the configuration. -/
structure Timing where
  cycle_length : ℤ
  yellow_time : ℤ
  all_red_time : ℤ
  min_green : ℤ
  max_green : ℤ

/-- The controller's mutable state: per-lane `last_seq` and `sensor_data`,
and the `metrics` dict (`lost_messages`, `total_messages`, `latencies`,
`cycle_count`). -/
structure CState (L : Type*) where
  last_seq : L → ℤ
  lost_messages : ℤ
  total_messages : ℤ
  latencies : List ℚ
  sensor_data : L → List Entry
  cycle_count : ℤ

/-- State built by `__init__` (edge_controller.py:27-38): every configured
lane maps to `-1` in `last_seq` and to an empty window; all metrics zero. -/
def init_state : CState L where
  last_seq := fun _ => -1
  lost_messages := 0
  total_messages := 0
  latencies := []
  sensor_data := fun _ => []
  cycle_count := 0

/-- `on_message` (edge_controller.py:71-120), for a message received at
wall-clock time `t_receive`.  `lanes` is the configured lane list, `window`
the `moving_average_window`.  Missing `lane`/`ts`/`seq` keys raise before
any mutation; a lane outside the configured dicts raises at
`self.last_seq[lane]` before any mutation; a missing `density_pct` raises at
the `sensor_data` append (line 102), i.e. after the loss/sequence/metrics
updates.  The exception handler only logs, so the state mutated so far is
returned. -/
def on_message (lanes : List L) (window : ℚ) (st : CState L)
    (t_receive : ℚ) (msg : Message L) : CState L :=
  match msg.lane with
  | none => st
  | some lane =>
    match msg.ts with
    | none => st
    | some t_publish =>
      let latency_ms : ℚ := (t_receive - t_publish) * 1000
      match msg.seq with
      | none => st
      | some current_seq =>
        if lane ∈ lanes then
          let expected_seq := st.last_seq lane + 1
          let st1 :=
            if st.last_seq lane ≥ 0 ∧ current_seq ≠ expected_seq then
              { st with lost_messages :=
                  st.lost_messages + (current_seq - expected_seq) }
            else st
          let st2 :=
            { st1 with
              last_seq := Function.update st1.last_seq lane current_seq
              total_messages := st1.total_messages + 1
              latencies := st1.latencies ++ [latency_ms] }
          match msg.density_pct with
          | none => st2
          | some density =>
            let entry : Entry :=
              { density := density
                queue := msg.queue_len.getD 0
                timestamp := t_publish }
            let pruned :=
              (st2.sensor_data lane ++ [entry]).filter
                fun d => decide (t_receive - window < d.timestamp)
            { st2 with
              sensor_data := Function.update st2.sensor_data lane pruned }
        else st

/-- Ingest a list of `(receipt time, message)` pairs in order. -/
def ingest_all (lanes : List L) (window : ℚ) :
    CState L → List (ℚ × Message L) → CState L
  | st, [] => st
  | st, (t, m) :: rest =>
    ingest_all lanes window (on_message lanes window st t m) rest

/-- Average density of a lane (edge_controller.py:130-137): arithmetic mean
of the stored densities, `0.0` for an empty window. -/
def avg_densities (sensor_data : L → List Entry) (lane : L) : ℚ :=
  match sensor_data lane with
  | [] => 0
  | l => ((l.map Entry.density).sum) / (l.length : ℚ)

/-- `total_density = sum(avg_densities.values())` over the configured lanes. -/
def total_density (lanes : List L) (avg : L → ℚ) : ℚ :=
  (lanes.map avg).sum

/-- `available = cycle - n_phases * (yellow + all_red)` (line 154). -/
def available_time (lanes : List L) (t : Timing) : ℤ :=
  t.cycle_length - lanes.length * (t.yellow_time + t.all_red_time)

/-- `raw_greens[lane]` (lines 157-166): the proportional share clamped to
`[min_green, max_green]`, still a float. -/
def raw_greens (lanes : List L) (t : Timing) (avg : L → ℚ) (lane : L) : ℚ :=
  max (t.min_green : ℚ)
    (min (t.max_green : ℚ)
      (avg lane / total_density lanes avg * (available_time lanes t : ℚ)))

/-- `green_times = {lane: int(g) ...}` before redistribution (line 170). -/
def green_int (lanes : List L) (t : Timing) (avg : L → ℚ) : L → ℤ :=
  fun lane => pyInt (raw_greens lanes t avg lane)

/-- `diff = available - current_sum` (lines 173-174). -/
def initial_diff (lanes : List L) (t : Timing) (avg : L → ℚ) : ℤ :=
  available_time lanes t - (lanes.map (green_int lanes t avg)).sum

/-- `adjustment = 1 if diff > 0 else -1` (line 184). -/
def adjustment (diff : ℤ) : ℤ := if 0 < diff then 1 else -1

/-- The redistribution loop (lines 181-186): one pass over the given lane
order; at each lane, stop if `diff == 0`, otherwise move the lane's green
time one second toward the target and shrink `diff` accordingly.  Returns
the updated map together with the remaining `diff`. -/
def redistribute (g : L → ℤ) (diff : ℤ) : List L → (L → ℤ) × ℤ
  | [] => (g, diff)
  | lane :: rest =>
    if diff = 0 then (g, diff)
    else
      redistribute (Function.update g lane (g lane + adjustment diff))
        (diff - adjustment diff) rest

/-- Stable insertion of `x` into a list already sorted by descending
`avg`: `x` is placed after every element whose key is ≥ its own, matching
the tie behaviour of Python's stable `sorted(..., reverse=True)`. -/
def insert_desc (avg : L → ℚ) (x : L) : List L → List L
  | [] => [x]
  | y :: ys =>
    if avg y ≤ avg x then x :: y :: ys else y :: insert_desc avg x ys

/-- `sorted(avg_densities.items(), key=..., reverse=True)` (lines 178-179):
stable sort of the configured lanes by descending average density. -/
def sort_desc (avg : L → ℚ) : List L → List L
  | [] => []
  | x :: xs => insert_desc avg x (sort_desc avg xs)

/-- The allocation algorithm of `compute_green_times`
(edge_controller.py:139-188) applied to a given average-density map. -/
def greens_of_avg (lanes : List L) (t : Timing) (avg : L → ℚ) : L → ℤ :=
  if total_density lanes avg ≤ 0 then
    fun _ => Int.fdiv t.cycle_length (lanes.length * 2)
  else if initial_diff lanes t avg = 0 then
    green_int lanes t avg
  else
    (redistribute (green_int lanes t avg) (initial_diff lanes t avg)
      (sort_desc avg lanes)).1

/-- `compute_green_times` (edge_controller.py:122-188): averages the stored
windows, then allocates. -/
def compute_green_times (lanes : List L) (t : Timing)
    (sensor_data : L → List Entry) : L → ℤ :=
  greens_of_avg lanes t (avg_densities sensor_data)

/-- The outbound schedule message built by `publish_schedule`
(edge_controller.py:201-208); `phase_schedule` entries are
`(lane, green, yellow)`. -/
structure Schedule (L : Type*) where
  cycle_start_ts : ℚ
  cycle_length : ℤ
  cycle_count : ℤ
  phase_schedule : List (L × ℤ × ℤ)

/-- `publish_schedule` (edge_controller.py:190-211): the outbound message
carries the *current* value of `metrics['cycle_count']`. -/
def publish_schedule (lanes : List L) (t : Timing) (st : CState L)
    (t_now : ℚ) (green : L → ℤ) : Schedule L where
  cycle_start_ts := t_now
  cycle_length := t.cycle_length
  cycle_count := st.cycle_count
  phase_schedule := lanes.map fun lane => (lane, green lane, t.yellow_time)

/-- One iteration of the `control_loop` body (edge_controller.py:261-275):
compute green times, publish the schedule (with the pre-increment counter),
then increment `cycle_count`.  CSV logging and the MQTT transport are
external I/O and carry no controller state. -/
def control_tick (lanes : List L) (t : Timing) (t_now : ℚ)
    (st : CState L) : CState L × Schedule L :=
  let green := compute_green_times lanes t st.sensor_data
  let sched := publish_schedule lanes t st t_now green
  ({ st with cycle_count := st.cycle_count + 1 }, sched)

end Proportional

namespace Adaptive

/-- The hard-coded lane list of `AdaptiveController.__init__` (app.py:204). -/
def lanes : List Lane4 := [.north, .south, .east, .west]

/-- `self.cycle_length = 60` (app.py:199). -/
def cycle_length : ℤ := 60

/-- `self.min_green = 10` (app.py:200). -/
def min_green : ℤ := 10

/-- `self.max_green = 60` (app.py:201). -/
def max_green : ℤ := 60

/-- `self.yellow_time = 3` (app.py:202). -/
def yellow_time : ℤ := 3

/-- `self.all_red_time = 2` (app.py:203). -/
def all_red_time : ℤ := 2

/-- Average density over the module-level `sensor_data` deque of a lane
(app.py:209-214), `0` when empty. -/
def avg_density (sensor_data : Lane4 → List ℚ) (lane : Lane4) : ℚ :=
  match sensor_data lane with
  | [] => 0
  | l => l.sum / (l.length : ℚ)

/-- `AdaptiveController.compute_green_times` (app.py:206-254).  Note the
differences from the edge controller: the zero-traffic path returns
`min_green`, and `int()` is applied before the `[min_green, max_green]`
clamp.  The redistribution pass is identical to the edge controller's, so
`Proportional.redistribute` and `Proportional.sort_desc` are reused. -/
def compute_green_times (sensor_data : Lane4 → List ℚ) : Lane4 → ℤ :=
  let avg := avg_density sensor_data
  let total := (lanes.map avg).sum
  if total ≤ 0 then
    fun _ => min_green
  else
    let available := cycle_length - lanes.length * (yellow_time + all_red_time)
    let green_times : Lane4 → ℤ := fun lane =>
      max min_green (min max_green (pyInt (avg lane / total * (available : ℚ))))
    let diff := available - (lanes.map green_times).sum
    if diff = 0 then green_times
    else
      (Proportional.redistribute green_times diff
        (Proportional.sort_desc avg lanes)).1

end Adaptive

/-- Configuration validity, modelled from the spec's words (§4.3, §7):
`minGreen ≤ maxGreen`, a nonempty lane set, no negative timing values, and
`availableTime ≥ 0`.  The source performs no such check; this predicate
states only what the spec says should be validated at startup. -/
def valid_config {L : Type*} (lanes : List L) (t : Proportional.Timing) : Prop :=
  t.min_green ≤ t.max_green ∧ lanes ≠ [] ∧
    0 ≤ t.cycle_length ∧ 0 ≤ t.yellow_time ∧ 0 ≤ t.all_red_time ∧
    0 ≤ t.min_green ∧ 0 ≤ Proportional.available_time lanes t

instance {L : Type*} [DecidableEq L] (lanes : List L) (t : Proportional.Timing) :
    Decidable (valid_config lanes t) := by
  unfold valid_config; infer_instance

/-! ## Concrete fixtures

Scenario data used by the closed counterexample and witness theorems:
the worked-example configuration of spec §8 and a handful of message
traces.  All of these only instantiate the definitions above. -/

/-- The worked-example timing of spec §8: `cycleLength=60, yellow=3,
allRed=2, minGreen=10, maxGreen=60`. -/
def exTiming : Proportional.Timing where
  cycle_length := 60
  yellow_time := 3
  all_red_time := 2
  min_green := 10
  max_green := 60

/-- The worked-example densities of spec §8: `{N:80, S:20, E:0, W:0}`. -/
def exAvg : Lane4 → ℚ := fun l =>
  match l with
  | .north => 80
  | .south => 20
  | .east => 0
  | .west => 0

/-- A timing with a loose clamp (`minGreen=0, maxGreen=100`), used to
exhibit a small nonzero rounding difference. -/
def wTiming : Proportional.Timing where
  cycle_length := 60
  yellow_time := 3
  all_red_time := 2
  min_green := 0
  max_green := 100

/-- Densities `{N:1, S:1, E:2, W:3}`: with `wTiming` the truncated greens
are `5, 5, 11, 17` and the rounding difference is `2`, at most the number
of lanes. -/
def wAvg : Lane4 → ℚ := fun l =>
  match l with
  | .north => 1
  | .south => 1
  | .east => 2
  | .west => 3

/-- An invalid configuration (`minGreen = 20 > 10 = maxGreen`). -/
def badTiming : Proportional.Timing where
  cycle_length := 60
  yellow_time := 3
  all_red_time := 2
  min_green := 20
  max_green := 10

/-- A well-formed reading on the north lane with sequence number `s`,
density 50, published at time 0. -/
def mkMsg (s : ℤ) : Proportional.Message Lane4 where
  lane := some .north
  density_pct := some 50
  queue_len := some 5
  seq := some s
  ts := some 0

/-- Per-lane sequence-number trace `[0,1,2,2,3]` (one duplicate), all
received at time 0. -/
def traceDup : List (ℚ × Proportional.Message Lane4) :=
  [0, 1, 2, 2, 3].map fun s => ((0 : ℚ), mkMsg s)

/-- Per-lane sequence-number trace `[0,1,2,5,6]` (a gap of two), all
received at time 0. -/
def traceGap : List (ℚ × Proportional.Message Lane4) :=
  [0, 1, 2, 5, 6].map fun s => ((0 : ℚ), mkMsg s)

/-- A message whose density (150) lies outside `[0,100]`, otherwise
well-formed. -/
def outOfRangeMsg : Proportional.Message Lane4 where
  lane := some .north
  density_pct := some 150
  queue_len := some 15
  seq := some 0
  ts := some 100

/-- A message missing the `density_pct` field, otherwise well-formed. -/
def noDensityMsg : Proportional.Message Lane4 where
  lane := some .north
  density_pct := none
  queue_len := none
  seq := some 0
  ts := some 100

/-- A message missing the `lane` field. -/
def noLaneMsg : Proportional.Message Lane4 where
  lane := none
  density_pct := some 50
  queue_len := some 5
  seq := some 0
  ts := some 100

/-- Empty per-lane sensor store for the API backend controller. -/
def emptyData : Lane4 → List ℚ := fun _ => []

/-! ## Helper lemmas about the allocation algorithm -/

namespace Proportional

variable {L : Type*} [DecidableEq L]

/-- `pyInt` agrees with the floor on nonnegative rationals. -/
theorem pyInt_eq_floor (q : ℚ) (h : 0 ≤ q) : pyInt q = ⌊q⌋ := by
  have hnum : 0 ≤ q.num := Rat.num_nonneg.mpr h
  have hden : (0 : ℤ) ≤ (q.den : ℤ) := Int.natCast_nonneg _
  rw [pyInt, Int.tdiv_eq_ediv hnum hden, Rat.floor_def]

/-- The redistribution pass never touches a lane outside the visited order. -/
theorem redistribute_apply_of_not_mem (g : L → ℤ) (diff : ℤ)
    (order : List L) (x : L) (hx : x ∉ order) :
    (redistribute g diff order).1 x = g x := by
  induction order generalizing g diff with
  | nil => rfl
  | cons lane rest ih =>
    have hxl : x ≠ lane := fun h => hx (h ▸ List.mem_cons_self lane rest)
    have hxr : x ∉ rest := fun h => hx (List.mem_cons_of_mem lane h)
    by_cases hd : diff = 0
    · simp [redistribute, hd]
    · simp only [redistribute, if_neg hd]
      rw [ih _ _ hxr, Function.update_apply, if_neg hxl]

/-- With a duplicate-free visiting order, the redistribution pass moves each
lane's green time by at most one second. -/
theorem redistribute_apply_sub_le (g : L → ℤ) (diff : ℤ)
    (order : List L) (hnd : order.Nodup) (x : L) :
    |(redistribute g diff order).1 x - g x| ≤ 1 := by
  induction order generalizing g diff with
  | nil => simp [redistribute]
  | cons lane rest ih =>
    have hlr : lane ∉ rest := (List.nodup_cons.mp hnd).1
    have hndr : rest.Nodup := (List.nodup_cons.mp hnd).2
    by_cases hd : diff = 0
    · simp [redistribute, hd]
    · simp only [redistribute, if_neg hd]
      by_cases hx : x = lane
      · subst hx
        rw [redistribute_apply_of_not_mem _ _ _ _ hlr, Function.update_same]
        have : adjustment diff = 1 ∨ adjustment diff = -1 := by
          unfold adjustment; split <;> simp
        rcases this with h | h <;> rw [h] <;> simp
      · have := ih (Function.update g lane (g lane + adjustment diff))
          (diff - adjustment diff) hndr
        rwa [Function.update_apply, if_neg hx] at this

/-- Evolution of the leftover `diff` for a nonnegative starting value: the
pass drives it to zero when the order is long enough, and otherwise
consumes exactly one unit per visited lane. -/
theorem redistribute_snd_of_nonneg (g : L → ℤ) (diff : ℤ) (order : List L)
    (h : 0 ≤ diff) :
    (diff ≤ order.length → (redistribute g diff order).2 = 0) ∧
      ((order.length : ℤ) ≤ diff →
        (redistribute g diff order).2 = diff - order.length) := by
  induction order generalizing g diff with
  | nil =>
    constructor
    · intro hle
      simp only [List.length_nil, Nat.cast_zero] at hle
      simp only [redistribute]
      omega
    · intro hge
      simp only [redistribute, List.length_nil, Nat.cast_zero]
      omega
  | cons lane rest ih =>
    by_cases hd : diff = 0
    · subst hd
      refine ⟨fun _ => by simp [redistribute], fun hge => ?_⟩
      simp only [List.length_cons] at hge
      omega
    · have hpos : 0 < diff := lt_of_le_of_ne h (Ne.symm hd)
      have hadj : adjustment diff = 1 := by unfold adjustment; rw [if_pos hpos]
      simp only [redistribute, if_neg hd, hadj, List.length_cons]
      have := ih (Function.update g lane (g lane + 1)) (diff - 1) (by omega)
      constructor
      · intro hle
        exact this.1 (by omega)
      · intro hge
        rw [this.2 (by omega)]
        omega

/-- Mirror image of `redistribute_snd_of_nonneg` for a nonpositive start. -/
theorem redistribute_snd_of_nonpos (g : L → ℤ) (diff : ℤ) (order : List L)
    (h : diff ≤ 0) :
    (-(order.length : ℤ) ≤ diff → (redistribute g diff order).2 = 0) ∧
      (diff ≤ -(order.length : ℤ) →
        (redistribute g diff order).2 = diff + order.length) := by
  induction order generalizing g diff with
  | nil =>
    constructor
    · intro hle
      simp only [List.length_nil, Nat.cast_zero, neg_zero] at hle
      simp only [redistribute]
      omega
    · intro hge
      simp only [redistribute, List.length_nil, Nat.cast_zero]
      omega
  | cons lane rest ih =>
    by_cases hd : diff = 0
    · subst hd
      refine ⟨fun _ => by simp [redistribute], fun hge => ?_⟩
      simp only [List.length_cons] at hge
      omega
    · have hneg : diff < 0 := lt_of_le_of_ne h hd
      have hadj : adjustment diff = -1 := by
        unfold adjustment; rw [if_neg (by omega)]
      simp only [redistribute, if_neg hd, hadj, List.length_cons]
      have := ih (Function.update g lane (g lane + -1)) (diff - -1) (by omega)
      constructor
      · intro hle
        exact this.1 (by omega)
      · intro hge
        rw [this.2 (by omega)]
        omega

/-- Pointwise update shifts a sum over a list by the shift times the
multiplicity of the updated key. -/
theorem sum_map_update (g : L → ℤ) (x : L) (v : ℤ) (l : List L) :
    (l.map (Function.update g x v)).sum = (l.map g).sum + (v - g x) * l.count x := by
  induction l with
  | nil => simp
  | cons y ys ih =>
    by_cases hyx : x = y
    · subst hyx
      simp only [List.map_cons, List.sum_cons, ih, Function.update_same,
        List.count_cons_self]
      push_cast
      ring
    · simp only [List.map_cons, List.sum_cons, ih, Function.update_apply,
        if_neg (Ne.symm hyx), List.count_cons_of_ne hyx]
      ring

/-- When every visited lane occurs exactly once among the configured lanes,
the redistribution pass changes the configured-lane sum by exactly the
amount of `diff` it consumed. -/
theorem redistribute_sum (g : L → ℤ) (diff : ℤ) (order : List L)
    (lanes : List L) (hcount : ∀ x ∈ order, lanes.count x = 1) :
    (lanes.map (redistribute g diff order).1).sum
      = (lanes.map g).sum + (diff - (redistribute g diff order).2) := by
  induction order generalizing g diff with
  | nil => simp [redistribute]
  | cons lane rest ih =>
    by_cases hd : diff = 0
    · simp [redistribute, hd]
    · simp only [redistribute, if_neg hd]
      rw [ih _ _ (fun x hx => hcount x (List.mem_cons_of_mem lane hx))]
      rw [sum_map_update, hcount lane (List.mem_cons_self lane rest)]
      ring

omit [DecidableEq L] in
/-- Stable descending insertion produces a permutation of consing. -/
theorem insert_desc_perm (avg : L → ℚ) (x : L) (l : List L) :
    List.Perm (insert_desc avg x l) (x :: l) := by
  induction l with
  | nil => exact List.Perm.refl _
  | cons y ys ih =>
    by_cases h : avg y ≤ avg x
    · simp [insert_desc, h]
    · simp only [insert_desc, if_neg h]
      exact (ih.cons y).trans (List.Perm.swap x y ys)

omit [DecidableEq L] in
/-- The descending sort permutes the configured lane list. -/
theorem sort_desc_perm (avg : L → ℚ) (l : List L) :
    List.Perm (sort_desc avg l) l := by
  induction l with
  | nil => exact List.Perm.refl _
  | cons x xs ih => exact (insert_desc_perm avg x _).trans (ih.cons x)

end Proportional

/-! ## Claims -/

section Claims

open Proportional

/-- C1: for a strictly positive total density the green-time map returned
by `compute_green_times` sums exactly to
`availableTime = cycleLength - lanesCount * (yellowTime + allRedTime)`
**provided** the initial rounding difference is at most the number of
lanes in absolute value: the redistribution is a single pass over the
lanes (amended from "for all values of the initial rounding difference";
see `C1_counterexample`). -/
theorem C1_theorem {L : Type*} [DecidableEq L] (lanes : List L)
    (t : Timing) (avg : L → ℚ) (hnd : lanes.Nodup)
    (hpos : 0 < total_density lanes avg)
    (hdiff : |initial_diff lanes t avg| ≤ lanes.length) :
    (lanes.map (greens_of_avg lanes t avg)).sum = available_time lanes t := by
  have hne : ¬ total_density lanes avg ≤ 0 := not_le.mpr hpos
  have habs := abs_le.mp hdiff
  unfold greens_of_avg
  rw [if_neg hne]
  by_cases h0 : initial_diff lanes t avg = 0
  · rw [if_pos h0]
    unfold initial_diff at h0
    omega
  · rw [if_neg h0]
    have hperm : List.Perm (sort_desc avg lanes) lanes := sort_desc_perm avg lanes
    have hcount : ∀ x ∈ sort_desc avg lanes, lanes.count x = 1 := fun x hx =>
      List.count_eq_one_of_mem hnd (hperm.mem_iff.mp hx)
    have hlen : (sort_desc avg lanes).length = lanes.length := hperm.length_eq
    have hsum := redistribute_sum (green_int lanes t avg)
      (initial_diff lanes t avg) (sort_desc avg lanes) lanes hcount
    have hzero : (redistribute (green_int lanes t avg) (initial_diff lanes t avg)
        (sort_desc avg lanes)).2 = 0 := by
      rcases le_or_lt 0 (initial_diff lanes t avg) with hge | hlt
      · exact (redistribute_snd_of_nonneg _ _ _ hge).1 (by rw [hlen]; exact habs.2)
      · exact (redistribute_snd_of_nonpos _ _ _ hlt.le).1 (by rw [hlen]; exact habs.1)
    rw [hsum, hzero]
    unfold initial_diff
    ring

/-- Witness for `C1_theorem`: four distinct lanes, densities
`{N:1, S:1, E:2, W:3}` and the loose-clamp timing give truncated greens
`5, 5, 11, 17` with rounding difference `2 ≤ 4`, and the redistributed
map sums exactly to the available time `40`. -/
theorem C1_witness :
    (Adaptive.lanes.Nodup ∧ 0 < total_density Adaptive.lanes wAvg ∧
      |initial_diff Adaptive.lanes wTiming wAvg| ≤ Adaptive.lanes.length) ∧
      (Adaptive.lanes.map (greens_of_avg Adaptive.lanes wTiming wAvg)).sum
        = available_time Adaptive.lanes wTiming :=
  ⟨⟨by decide,
    by norm_num [total_density, Adaptive.lanes, wAvg],
    by norm_num [initial_diff, green_int, raw_greens, total_density,
      available_time, Adaptive.lanes, wTiming, wAvg, pyInt_eq_floor]⟩,
    C1_theorem Adaptive.lanes wTiming wAvg (by decide)
      (by norm_num [total_density, Adaptive.lanes, wAvg])
      (by norm_num [initial_diff, green_int, raw_greens, total_density,
        available_time, Adaptive.lanes, wTiming, wAvg, pyInt_eq_floor])⟩

/-- Counterexample to C1 as stated: the spec's own worked example
(densities `{N:80, S:20, E:0, W:0}`, `cycleLength=60, yellow=3, allRed=2`,
clamp `[10,60]`) has total density `100 > 0`, available time `40`, but the
single redistribution pass only reaches a sum of `58`, not `40`. -/
theorem C1_counterexample :
    0 < total_density Adaptive.lanes exAvg ∧
      available_time Adaptive.lanes exTiming = 40 ∧
      (Adaptive.lanes.map (greens_of_avg Adaptive.lanes exTiming exAvg)).sum = 58 ∧
      (58 : ℤ) ≠ 40 := by
  refine ⟨by norm_num [total_density, Adaptive.lanes, exAvg],
    by norm_num [available_time, Adaptive.lanes, exTiming], ?_, by decide⟩
  norm_num [greens_of_avg, initial_diff, green_int, raw_greens, total_density,
    available_time, Adaptive.lanes, exTiming, exAvg, pyInt, redistribute,
    sort_desc, insert_desc, adjustment, Function.update_apply]
  decide

/-- C10: for a strictly positive total density and distinct lanes, the
redistribution step of `compute_green_times` changes each lane's green
time by at most one second (it visits each lane at most once), so every
final green time differs from its clamped-and-truncated value by at most
1, and the final sum differs from the pre-redistribution sum by at most
the number of lanes. -/
theorem C10_theorem {L : Type*} [DecidableEq L] (lanes : List L)
    (t : Timing) (avg : L → ℚ) (hnd : lanes.Nodup)
    (hpos : 0 < total_density lanes avg) :
    (∀ x, |greens_of_avg lanes t avg x - green_int lanes t avg x| ≤ 1) ∧
      |(lanes.map (greens_of_avg lanes t avg)).sum
          - (lanes.map (green_int lanes t avg)).sum| ≤ lanes.length := by
  have hne : ¬ total_density lanes avg ≤ 0 := not_le.mpr hpos
  unfold greens_of_avg
  rw [if_neg hne]
  by_cases h0 : initial_diff lanes t avg = 0
  · rw [if_pos h0]
    refine ⟨fun x => by simp, ?_⟩
    simp only [sub_self, abs_zero]
    exact Int.natCast_nonneg _
  · rw [if_neg h0]
    have hperm : List.Perm (sort_desc avg lanes) lanes := sort_desc_perm avg lanes
    have hndo : (sort_desc avg lanes).Nodup := hperm.nodup_iff.mpr hnd
    have hcount : ∀ x ∈ sort_desc avg lanes, lanes.count x = 1 := fun x hx =>
      List.count_eq_one_of_mem hnd (hperm.mem_iff.mp hx)
    have hlen : (sort_desc avg lanes).length = lanes.length := hperm.length_eq
    have hsum := redistribute_sum (green_int lanes t avg)
      (initial_diff lanes t avg) (sort_desc avg lanes) lanes hcount
    refine ⟨fun x => redistribute_apply_sub_le _ _ _ hndo x, ?_⟩
    rw [abs_le]
    rcases le_or_lt 0 (initial_diff lanes t avg) with hge | hlt
    · rcases le_or_lt (initial_diff lanes t avg)
        ((sort_desc avg lanes).length : ℤ) with hle2 | hgt2
      · have hsnd := (redistribute_snd_of_nonneg (green_int lanes t avg) _ _ hge).1 hle2
        omega
      · have hsnd := (redistribute_snd_of_nonneg (green_int lanes t avg) _ _ hge).2 hgt2.le
        omega
    · rcases le_or_lt (-((sort_desc avg lanes).length : ℤ))
        (initial_diff lanes t avg) with hle2 | hgt2
      · have hsnd := (redistribute_snd_of_nonpos (green_int lanes t avg) _ _ hlt.le).1 hle2
        omega
      · have hsnd := (redistribute_snd_of_nonpos (green_int lanes t avg) _ _ hlt.le).2 hgt2.le
        omega

/-- Witness for `C10_theorem` at the worked-example input (total density
100, distinct lanes). -/
theorem C10_witness :
    (Adaptive.lanes.Nodup ∧ 0 < total_density Adaptive.lanes exAvg) ∧
      ((∀ x, |greens_of_avg Adaptive.lanes exTiming exAvg x
          - green_int Adaptive.lanes exTiming exAvg x| ≤ 1) ∧
        |(Adaptive.lanes.map (greens_of_avg Adaptive.lanes exTiming exAvg)).sum
            - (Adaptive.lanes.map (green_int Adaptive.lanes exTiming exAvg)).sum|
          ≤ Adaptive.lanes.length) :=
  ⟨⟨by decide, by norm_num [total_density, Adaptive.lanes, exAvg]⟩,
    C10_theorem Adaptive.lanes exTiming exAvg (by decide)
      (by norm_num [total_density, Adaptive.lanes, exAvg])⟩

/-- C2 (code bug): the `lostMessages` counter is *not* monotone.
`on_message` adds `current_seq - expected_seq` whenever the sequence
number differs from the expected one, and this quantity is negative for a
stale or duplicate reading: ingesting the per-lane sequence trace
`[0,1,2,2,3]` drives `lost_messages` to `-1`, not `0`. -/
theorem C2_theorem :
    (ingest_all Adaptive.lanes 30 init_state traceDup).lost_messages = -1 ∧
      (-1 : ℤ) < 0 := by
  decide

/-- Counterexample to C3 as stated: the gap trace `[0,1,2,5,6]` yields
`lost_messages = 2` (messages 3 and 4 are missing), not `3`. -/
theorem C3_counterexample :
    (ingest_all Adaptive.lanes 30 init_state traceGap).lost_messages = 2 ∧
      (2 : ℤ) ≠ 3 := by
  decide

/-- C3 (amended): ingesting sequence numbers `[0,1,2,5,6]` for one lane
starting from the unset state yields `lost_messages = 2`, and no loss is
attributed to the first reading of the lane. -/
theorem C3_theorem :
    (ingest_all Adaptive.lanes 30 init_state traceGap).lost_messages = 2 ∧
      (ingest_all Adaptive.lanes 30 init_state [((0 : ℚ), mkMsg 0)]).lost_messages = 0 := by
  decide

/-- C4 (amended): a message missing the `lane`, `ts` or `seq` field is
dropped atomically, before any state change.  (Out-of-range densities are
*not* treated as malformed, and a missing `density_pct` is dropped only
after the metrics updates; see `C4_counterexample`.) -/
theorem C4_theorem {L : Type*} [DecidableEq L] (lanes : List L)
    (window : ℚ) (st : CState L) (t_receive : ℚ) (msg : Message L)
    (h : msg.lane = none ∨ msg.ts = none ∨ msg.seq = none) :
    on_message lanes window st t_receive msg = st := by
  cases hml : msg.lane with
  | none => simp [on_message, hml]
  | some l =>
    cases hmt : msg.ts with
    | none => simp [on_message, hml, hmt]
    | some tp =>
      cases hms : msg.seq with
      | none => simp [on_message, hml, hmt, hms]
      | some s => simp_all

/-- Witness for `C4_theorem`: the message missing its `lane` field leaves
the freshly initialized state untouched. -/
theorem C4_witness :
    (noLaneMsg.lane = none ∨ noLaneMsg.ts = none ∨ noLaneMsg.seq = none) ∧
      on_message Adaptive.lanes 30 init_state 100 noLaneMsg = init_state :=
  ⟨Or.inl rfl,
    C4_theorem Adaptive.lanes 30 init_state 100 noLaneMsg (Or.inl rfl)⟩

/-- Counterexample to C4 as stated: a density of `150` (outside `[0,100]`)
is not dropped — the reading is fully ingested, counters and window
included — and a message missing only `density_pct` still increments
`total_messages` and appends a latency sample before failing, leaving the
window unchanged. -/
theorem C4_counterexample :
    (on_message Adaptive.lanes 30 init_state 100 outOfRangeMsg).total_messages = 1 ∧
      (init_state : CState Lane4).total_messages = (0 : ℤ) ∧
      (on_message Adaptive.lanes 30 init_state 100 outOfRangeMsg).sensor_data Lane4.north
        = [{ density := 150, queue := 15, timestamp := 100 }] ∧
      (on_message Adaptive.lanes 30 init_state 100 noDensityMsg).total_messages = 1 ∧
      (on_message Adaptive.lanes 30 init_state 100 noDensityMsg).latencies.length = 1 ∧
      (on_message Adaptive.lanes 30 init_state 100 noDensityMsg).sensor_data Lane4.north
        = [] := by
  refine ⟨by decide, by decide, ?_, by decide, by decide, by decide⟩
  norm_num [on_message, init_state, outOfRangeMsg, Adaptive.lanes,
    Function.update_apply, List.filter]

/-- C5 (amended): every control-loop tick increments `cycle_count` by
exactly 1, but the schedule published during the tick carries the
*pre-increment* value of the counter (the increment happens after
`publish_schedule` returns). -/
theorem C5_theorem {L : Type*} [DecidableEq L] (lanes : List L)
    (t : Timing) (t_now : ℚ) (st : CState L) :
    (control_tick lanes t t_now st).1.cycle_count = st.cycle_count + 1 ∧
      (control_tick lanes t t_now st).2.cycle_count = st.cycle_count :=
  ⟨rfl, rfl⟩

/-- Counterexample to C5 as stated: from the initial state the first tick
publishes `cycle_count = 0`, while the post-increment counter is `1`. -/
theorem C5_counterexample :
    (control_tick Adaptive.lanes exTiming 0 (init_state : CState Lane4)).2.cycle_count = 0 ∧
      (control_tick Adaptive.lanes exTiming 0 (init_state : CState Lane4)).1.cycle_count = 1 ∧
      (0 : ℤ) ≠ 1 := by
  refine ⟨rfl, rfl, by decide⟩

/-- Auxiliary for the floor form of the equal split: the Python floor
division `cycle // (n * 2)` is `⌊cycle / (2n)⌋`. -/
theorem fdiv_eq_floor_div (c : ℤ) (n : ℕ) :
    Int.fdiv c ((n : ℤ) * 2) = ⌊(c : ℚ) / (2 * (n : ℚ))⌋ := by
  rw [Int.fdiv_eq_ediv _ (by positivity), mul_comm]
  have h := Rat.floor_intCast_div_natCast c (2 * n)
  push_cast at h
  exact h.symm

/-- C6 (amended): when the total average density is `≤ 0`, the edge
controller's `compute_green_times` returns the identical value
`⌊cycleLength / (2 * lanesCount)⌋` for every lane, while the API backend's
`AdaptiveController.compute_green_times` instead returns `min_green` for
every lane; neither path divides by a density. -/
theorem C6_theorem :
    (∀ {L : Type} [DecidableEq L] (lanes : List L) (t : Timing) (avg : L → ℚ),
        total_density lanes avg ≤ 0 →
        ∀ lane, greens_of_avg lanes t avg lane
          = ⌊(t.cycle_length : ℚ) / (2 * (lanes.length : ℚ))⌋) ∧
      (∀ sensor_data : Lane4 → List ℚ,
        (Adaptive.lanes.map (Adaptive.avg_density sensor_data)).sum ≤ 0 →
        ∀ lane, Adaptive.compute_green_times sensor_data lane = Adaptive.min_green) := by
  constructor
  · intro L _ lanes t avg h lane
    unfold greens_of_avg
    rw [if_pos h]
    exact fdiv_eq_floor_div t.cycle_length lanes.length
  · intro sensor_data h lane
    simp only [Adaptive.compute_green_times]
    rw [if_pos h]

/-- Witness for `C6_theorem`: empty windows give total density `0` in
both controllers; the edge controller's equal split is `⌊60/8⌋ = 7`, the
API backend's is `min_green = 10`. -/
theorem C6_witness :
    (total_density Adaptive.lanes (fun _ => (0 : ℚ)) ≤ 0 ∧
        (Adaptive.lanes.map (Adaptive.avg_density emptyData)).sum ≤ 0) ∧
      (∀ lane, greens_of_avg Adaptive.lanes exTiming (fun _ => (0 : ℚ)) lane
          = ⌊(exTiming.cycle_length : ℚ) / (2 * (Adaptive.lanes.length : ℚ))⌋) ∧
      (∀ lane, Adaptive.compute_green_times emptyData lane = Adaptive.min_green) :=
  ⟨⟨by norm_num [total_density, Adaptive.lanes],
      by norm_num [Adaptive.avg_density, Adaptive.lanes, emptyData]⟩,
    C6_theorem.1 Adaptive.lanes exTiming (fun _ => (0 : ℚ))
      (by norm_num [total_density, Adaptive.lanes]),
    C6_theorem.2 emptyData
      (by norm_num [Adaptive.avg_density, Adaptive.lanes, emptyData])⟩

/-- Counterexample to C6 as stated: with empty windows the API backend's
`AdaptiveController.compute_green_times` returns `10` (its `min_green`),
not `⌊60 / (2·4)⌋ = 7`. -/
theorem C6_counterexample :
    (Adaptive.lanes.map (Adaptive.avg_density emptyData)).sum ≤ 0 ∧
      Adaptive.compute_green_times emptyData Lane4.north = 10 ∧
      ⌊(Adaptive.cycle_length : ℚ) / (2 * (Adaptive.lanes.length : ℚ))⌋ = 7 ∧
      (10 : ℤ) ≠ 7 := by
  refine ⟨by norm_num [Adaptive.avg_density, Adaptive.lanes, emptyData], ?_,
    by norm_num [Adaptive.cycle_length, Adaptive.lanes], by decide⟩
  norm_num [Adaptive.compute_green_times, Adaptive.avg_density, Adaptive.lanes,
    emptyData, Adaptive.min_green]

/-- C7: after a successful ingest at receipt time `t_receive`, every entry
retained in the lane's window has `timestamp > t_receive - window`; hence a
reading stamped `T` is excluded from `average(lane)` once a later reading
is recorded at a time `T' > T + window`.  Pruning happens only inside
`on_message`, against the receipt time of the latest insertion, so the
stored windows — and with them `avg_densities` — are a pure function of
the ingested reading sequence. -/
theorem C7_theorem {L : Type*} [DecidableEq L] (lanes : List L)
    (window : ℚ) (st : CState L) (t_receive : ℚ) (msg : Message L)
    (l : L) (hl : msg.lane = some l) (hmem : l ∈ lanes)
    (tp : ℚ) (ht : msg.ts = some tp) (s : ℤ) (hs : msg.seq = some s)
    (d : ℚ) (hd : msg.density_pct = some d) :
    ∀ e ∈ (on_message lanes window st t_receive msg).sensor_data l,
      t_receive - window < e.timestamp := by
  intro e he
  simp only [on_message, hl, ht, hs, hd, if_pos hmem, Function.update_same] at he
  exact of_decide_eq_true (List.mem_filter.mp he).2

/-- Witness for `C7_theorem`: a concrete ingest at receipt time 100 with a
30-second window leaves only entries stamped after 70. -/
theorem C7_witness :
    (outOfRangeMsg.lane = some Lane4.north ∧ Lane4.north ∈ Adaptive.lanes ∧
        outOfRangeMsg.ts = some 100 ∧ outOfRangeMsg.seq = some 0 ∧
        outOfRangeMsg.density_pct = some 150) ∧
      ∀ e ∈ (on_message Adaptive.lanes 30 init_state 100 outOfRangeMsg).sensor_data
          Lane4.north, (100 : ℚ) - 30 < e.timestamp :=
  ⟨⟨rfl, by decide, rfl, rfl, rfl⟩,
    C7_theorem Adaptive.lanes 30 init_state 100 outOfRangeMsg Lane4.north rfl
      (by decide) 100 rfl 0 rfl 150 rfl⟩

/-- Every structurally complete message (lane configured, `ts` and `seq`
present) appends exactly one latency sample, whether or not the density
field is present. -/
theorem on_message_latencies {L : Type*} [DecidableEq L] (lanes : List L)
    (window : ℚ) (st : CState L) (t_receive : ℚ) (msg : Message L)
    (l : L) (hl : msg.lane = some l) (hmem : l ∈ lanes)
    (tp : ℚ) (ht : msg.ts = some tp) (s : ℤ) (hs : msg.seq = some s) :
    (on_message lanes window st t_receive msg).latencies
      = st.latencies ++ [(t_receive - tp) * 1000] := by
  cases hd : msg.density_pct with
  | none =>
    simp only [on_message, hl, ht, hs, hd, if_pos hmem]
    by_cases hc : st.last_seq l ≥ 0 ∧ s ≠ st.last_seq l + 1 <;> simp [hc]
  | some d =>
    simp only [on_message, hl, ht, hs, hd, if_pos hmem]
    by_cases hc : st.last_seq l ≥ 0 ∧ s ≠ st.last_seq l + 1 <;> simp [hc]

/-- C8 (amended): the edge controller's latency sample store is an
*unbounded* list, not a bounded ring — every valid ingest appends exactly
one sample and nothing is ever evicted (`C8_counterexample` refutes the
existence of any capacity bound). -/
theorem C8_theorem {L : Type*} [DecidableEq L] (lanes : List L)
    (window : ℚ) (st : CState L) (t_receive : ℚ) (msg : Message L)
    (l : L) (hl : msg.lane = some l) (hmem : l ∈ lanes)
    (tp : ℚ) (ht : msg.ts = some tp) (s : ℤ) (hs : msg.seq = some s) :
    (on_message lanes window st t_receive msg).latencies
      = st.latencies ++ [(t_receive - tp) * 1000] :=
  on_message_latencies lanes window st t_receive msg l hl hmem tp ht s hs

/-- Witness for `C8_theorem`: one valid reading appends one sample to the
initially empty store. -/
theorem C8_witness :
    ((mkMsg 0).lane = some Lane4.north ∧ Lane4.north ∈ Adaptive.lanes ∧
        (mkMsg 0).ts = some 0 ∧ (mkMsg 0).seq = some 0) ∧
      (on_message Adaptive.lanes 30 init_state 0 (mkMsg 0)).latencies
        = (init_state : CState Lane4).latencies ++ [((0 : ℚ) - 0) * 1000] :=
  ⟨⟨rfl, by decide, rfl, rfl⟩,
    C8_theorem Adaptive.lanes 30 init_state 0 (mkMsg 0) Lane4.north rfl
      (by decide) 0 rfl 0 rfl⟩

/-- Counterexample to C8 as stated: no fixed capacity bounds the number of
retained latency samples — for any candidate capacity, ingesting that many
valid readings plus one exceeds it. -/
theorem C8_counterexample :
    ¬ ∃ cap : ℕ, ∀ msgs : List (ℚ × Proportional.Message Lane4),
        (ingest_all Adaptive.lanes 30 init_state msgs).latencies.length ≤ cap := by
  rintro ⟨cap, hcap⟩
  have hlen : ∀ (n : ℕ) (st : CState Lane4),
      (ingest_all Adaptive.lanes 30 st
          (List.replicate n ((0 : ℚ), mkMsg 0))).latencies.length
        = st.latencies.length + n := by
    intro n
    induction n with
    | zero => intro st; simp [ingest_all]
    | succ k ih =>
      intro st
      rw [List.replicate_succ]
      simp only [ingest_all]
      rw [ih, on_message_latencies Adaptive.lanes 30 st 0 (mkMsg 0) Lane4.north
        rfl (by decide) 0 rfl 0 rfl]
      simp only [List.length_append, List.length_singleton]
      omega
  have h2 := hcap (List.replicate (cap + 1) ((0 : ℚ), mkMsg 0))
  rw [hlen (cap + 1) init_state] at h2
  simp [init_state] at h2

/-- C9 (amended): controller startup performs no configuration validation
at all — for *every* configuration, valid or not, `__init__` succeeds with
zeroed metrics and the control loop proceeds (the first tick increments
`cycle_count` from 0 to 1); no per-call validation occurs later either. -/
theorem C9_theorem {L : Type*} [DecidableEq L] (lanes : List L)
    (t : Timing) (t_now : ℚ) :
    (init_state : CState L).total_messages = 0 ∧
      (init_state : CState L).lost_messages = 0 ∧
      (init_state : CState L).cycle_count = 0 ∧
      (control_tick lanes t t_now (init_state : CState L)).1.cycle_count = 1 :=
  ⟨rfl, rfl, rfl, rfl⟩

/-- Counterexample to C9 as stated: the configuration with
`minGreen = 20 > 10 = maxGreen` is invalid in the spec's sense, yet
startup succeeds and the control loop runs a full cycle on it (no
`ConfigError` path exists in the code). -/
theorem C9_counterexample :
    ¬ valid_config Adaptive.lanes badTiming ∧
      (control_tick Adaptive.lanes badTiming 0 (init_state : CState Lane4)).1.cycle_count = 1 ∧
      (control_tick Adaptive.lanes badTiming 0 (init_state : CState Lane4)).2.cycle_count = 0 := by
  refine ⟨by decide, rfl, rfl⟩

end Claims
